import Mathlib

set_option maxRecDepth 8192

/-!
Shallow embedding of the README-generator repository.

Sources embedded here:
 - src/unnamed/part_000, first script (the utils/generateMarkdown.js module):
   renderLicenseBadge, renderLicenseLink, renderLicenseSection, generateMarkdown.
 - src/unnamed/part_000, second script (a second copy of the entry script):
   generateReadme, questions, init.
 - src/index.js (the entry script): generateReadme (embedded as
   generateReadmeIndex), questions (embedded as questionsIndex), init.

JavaScript objects whose values are strings are modelled as association
lists; property access on a missing key yields none (undefined), and
template interpolation of undefined yields the text "undefined", as in
JavaScript.
-/

/-- A JavaScript object with string values: an association list from
property names to values. -/
def JsObj : Type := List (String × String)

/-- JavaScript property access `obj.k`: the value at the first occurrence of
key `k`, or `none` (undefined) when the key is absent. -/
def jsGet (obj : JsObj) (k : String) : Option String :=
  (List.find? (fun p => p.1 == k) obj).map (fun p => p.2)

/-- JavaScript template interpolation of a possibly-undefined value: an
undefined value prints as the literal text "undefined". -/
def jsInterp : Option String → String
  | some s => s
  | none => "undefined"

/-- The badge-image markdown fragment that appears literally in both
renderLicenseBadge and renderLicenseLink (part_000 lines 6 and 16). -/
def badgeFragment : String :=
  "![Crates.io](https://img.shields.io/crates/l/rustc-serialize/0.3.24)"

/-- renderLicenseBadge from part_000 lines 3-10: for a non-empty license,
the license name followed directly by the badge fragment; otherwise the
empty string. -/
def renderLicenseBadge (license : String) : String :=
  if license ≠ "" then
    license ++ "![Crates.io](https://img.shields.io/crates/l/rustc-serialize/0.3.24)"
  else
    ""

/-- renderLicenseLink from part_000 lines 14-20: for a non-empty license,
the badge fragment, a space, then the license name; otherwise the empty
string. -/
def renderLicenseLink (license : String) : String :=
  if license ≠ "" then
    "![Crates.io](https://img.shields.io/crates/l/rustc-serialize/0.3.24) " ++ license
  else
    ""

/-- renderLicenseSection from part_000 lines 24-30: the license name
verbatim when non-empty, otherwise the empty string. -/
def renderLicenseSection (license : String) : String :=
  if license ≠ "" then license else ""

/-- generateMarkdown from part_000 lines 33-35, the only export of the
utils module: a title heading alone. -/
def generateMarkdown (data : JsObj) : String :=
  "# " ++ jsInterp (jsGet data "title")

/-- generateReadme from part_000 lines 48-83 (the second entry script).
The argument object is destructured on the keys title, description,
installation, usage, credits, tests, license, username, email, and the
values are interpolated verbatim into one fixed template. Every string
literal below is byte-for-byte the corresponding template text, including
the trailing space after the Description table-of-contents line, the
four-space indents, and the missing space in the Questions heading. -/
def generateReadme (obj : JsObj) : String :=
  "# " ++ jsInterp (jsGet obj "title")
  ++ "\n\n## Description\n    " ++ jsInterp (jsGet obj "description")
  ++ "\n\n## Table of Contents\n*[Description](#description) \n*[Installation](#installation)\n*[Usage](#usage)\n*[License](#license)\n*[Credits](#credits)\n*[Tests](#tests)\n*[Questions] (#questions)\n\n\n## Installation\n    " ++ jsInterp (jsGet obj "installation")
  ++ "\n\n## Usage\n    " ++ jsInterp (jsGet obj "usage")
  ++ "\n\n## License\n    " ++ jsInterp (jsGet obj "license")
  ++ "\n\n## Contributing\n    " ++ jsInterp (jsGet obj "credits")
  ++ "\n\n## Tests\n    " ++ jsInterp (jsGet obj "tests")
  ++ "\n\n##Questions\n\nHere is a link to my GitHub profile " ++ jsInterp (jsGet obj "username")
  ++ ".\nIf you have any questions or would like to contribute to this  project you can email me at " ++ jsInterp (jsGet obj "email")
  ++ ".\n"

/-- The binding of the identifier `data` in the module scope of
src/index.js. The template of that file dereferences `data` in its five
table-of-contents lines (lines 13-17), but no declaration of `data` exists
anywhere in the file, so the binding is absent and the dereference raises a
ReferenceError when the template is evaluated. -/
def indexDataBinding : Option JsObj := none

/-- generateReadme from src/index.js lines 6-38, embedded under the name
generateReadmeIndex. Evaluating its template dereferences the module-scope
identifier `data`; since src/index.js never declares `data`, every call
raises a ReferenceError. The Except.ok branch embeds the full template for
the hypothetical case of a bound `data`. -/
def generateReadmeIndex (obj : JsObj) : Except String String :=
  match indexDataBinding with
  | none => Except.error "ReferenceError: data is not defined"
  | some data =>
    Except.ok (
      "# " ++ jsInterp (jsGet obj "title")
      ++ "\n\n## Description\n" ++ jsInterp (jsGet obj "description")
      ++ "\n\n## Table of Contents\n-Description " ++ jsInterp (jsGet data "description")
      ++ "\n-Installation" ++ jsInterp (jsGet data "installation")
      ++ "\n-Usage" ++ jsInterp (jsGet data "usage")
      ++ "\n-License" ++ jsInterp (jsGet data "license")
      ++ "\n-Credits" ++ jsInterp (jsGet data "credits")
      ++ "\n\n\n## Installation\n" ++ jsInterp (jsGet obj "installation")
      ++ "\n\n## Usage\n" ++ jsInterp (jsGet obj "usage")
      ++ "\n\n## License\n" ++ jsInterp (jsGet obj "license")
      ++ "\n\n## Contributing\n" ++ jsInterp (jsGet obj "credits")
      ++ "\n\n## Tests\n" ++ jsInterp (jsGet obj "tests")
      ++ "\n\n##Questions\nHere is a link to my GitHub profile " ++ jsInterp (jsGet obj "username")
      ++ ".\nIf you have any questions or would like to contribute to this  project you can email me at " ++ jsInterp (jsGet obj "email")
      ++ ".\n")

/-- One entry of the questions arrays: the prompt type, the message shown to
the operator, the choice list (present only for list-type questions), and
the name of the answer field it produces. -/
structure Question where
  type : String
  message : String
  choices : Option (List String)
  name : String

/-- questions from src/index.js lines 40-86, in source order. -/
def questionsIndex : List Question :=
  [ ⟨"Input", "What is your project title?", none, "title"⟩,
    ⟨"list", "Choose license", some ["Apache-2.0", "MIT", "BSD", "GPL"], "license"⟩,
    ⟨"Input", "What is your project description", none, "description"⟩,
    ⟨"Input", "What is your project installation instructions?", none, "installation"⟩,
    ⟨"Input", "What is your project usage information?", none, "usage"⟩,
    ⟨"Input", "What is your project contribution guidelines?", none, "contribution"⟩,
    ⟨"Input", "What is your project test instructions?", none, "tests"⟩,
    ⟨"Input", "GitHub username?", none, "username"⟩,
    ⟨"input", "email address", none, "email"⟩ ]

/-- questions from part_000 lines 85-131 (the second entry script), in
source order. It differs from questionsIndex only in some messages and in
the first license choice, the combined variant MIT/Apache-2.0. -/
def questions : List Question :=
  [ ⟨"Input", "What is your project title?", none, "title"⟩,
    ⟨"list", "Choose license", some ["MIT/Apache-2.0", "MIT", "BSD", "GPL"], "license"⟩,
    ⟨"Input", "Project description", none, "description"⟩,
    ⟨"Input", "What installations did you use for your project?", none, "installation"⟩,
    ⟨"Input", "Provide instructions and examples for use?", none, "usage"⟩,
    ⟨"Input", "Who contributed to this project?", none, "contribution"⟩,
    ⟨"Input", "What is your project test instructions?", none, "tests"⟩,
    ⟨"Input", "GitHub username?", none, "username"⟩,
    ⟨"input", "email address", none, "email"⟩ ]

/-- The answers object produced by the prompt library for a completed run:
one property per question, keyed by the name field of that question, holding
the text the operator supplied. This models the documented behaviour of the
prompt call in init (src/index.js line 93, part_000 line 138); the key list
comes from the questions array of the source. -/
def promptAnswers (responses : List String) : JsObj :=
  (questions.map (fun q => q.name)).zip responses

/-- A pending file write: the file name passed to the write call and the
data to be written. -/
structure WriteRequest where
  fileName : String
  contents : String

/-- The write issued by init (identical in src/index.js lines 92-100 and
part_000 lines 137-145): the rendered readme is written to the fixed file
name README.md. -/
def initWriteRequest (answers : JsObj) : WriteRequest :=
  ⟨"README.md", generateReadme answers⟩

/-- The callback init passes to the write call: on an error it logs the
error object, otherwise it logs the fixed success message, with no retry in
either case (src/index.js lines 96-98, part_000 lines 141-143). -/
def writeFileCallback (err : Option String) : String :=
  match err with
  | some e => e
  | none => "Successfully written Readme!"

/-- Modelled from the spec: the effect of the file-system write call, which
is library code outside this repository. Per the spec, the output artifact
is a file of the requested name written to the current working directory,
overwriting any existing file of that name. A directory is a finite map
from file names to contents, represented as an association list read
through jsGet. -/
def fsWriteFile (dir : List (String × String)) (req : WriteRequest) :
    List (String × String) :=
  (req.fileName, req.contents) :: dir.filter (fun p => p.1 ≠ req.fileName)

/-- The demonstration AnswerSet of the spec, as the prompt library would
deliver it: note the contribution answer is stored under the key
contribution, matching the questions arrays. -/
def demoAnswers : JsObj :=
  [ ("title", "Demo"), ("license", "MIT"), ("description", "A demo."),
    ("installation", "npm install"), ("usage", "run it"),
    ("contribution", "Jane"), ("tests", "none"),
    ("username", "janedoe"), ("email", "jane@example.com") ]

/-- The demonstration AnswerSet with the license answer replaced by the
empty string. -/
def demoAnswersNoLicense : JsObj :=
  [ ("title", "Demo"), ("license", ""), ("description", "A demo."),
    ("installation", "npm install"), ("usage", "run it"),
    ("contribution", "Jane"), ("tests", "none"),
    ("username", "janedoe"), ("email", "jane@example.com") ]

/-- Substring containment on strings: t occurs contiguously inside s. -/
def strContains (t s : String) : Prop :=
  ∃ u v : String, s = u ++ t ++ v

theorem strContains_of_eq (t u v s : String) (h : u ++ t ++ v = s) :
    strContains t s :=
  ⟨u, v, h.symm⟩

theorem strContains_appendRight (t s c : String) (h : strContains t s) :
    strContains t (s ++ c) := by
  obtain ⟨u, v, rfl⟩ := h
  exact ⟨u, v ++ c, by rw [String.append_assoc, String.append_assoc]⟩

theorem strContains_appendLeft (t s c : String) (h : strContains t s) :
    strContains t (c ++ s) := by
  obtain ⟨u, v, rfl⟩ := h
  exact ⟨c ++ u, v, by rw [String.append_assoc, String.append_assoc,
    String.append_assoc]⟩

theorem strContains_lastTwo (t p q r : String) (h : strContains t (q ++ r)) :
    strContains t ((p ++ q) ++ r) := by
  rw [String.append_assoc]
  exact strContains_appendLeft t (q ++ r) p h

theorem gr_has_license (obj : JsObj) :
    strContains "## License" (generateReadme obj) := by
  unfold generateReadme
  apply strContains_appendRight
  apply strContains_appendRight
  apply strContains_appendRight
  apply strContains_appendRight
  apply strContains_appendRight
  apply strContains_appendRight
  apply strContains_appendRight
  apply strContains_appendRight
  apply strContains_appendRight
  apply strContains_appendRight
  apply strContains_appendLeft
  exact strContains_of_eq "## License" "\n\n" "\n    " _ (by decide)

theorem gr_has_description (obj : JsObj) :
    strContains "## Description" (generateReadme obj) := by
  unfold generateReadme
  iterate 16 apply strContains_appendRight
  apply strContains_appendLeft
  exact strContains_of_eq "## Description" "\n\n" "\n    " _ (by decide)

theorem gr_has_installation (obj : JsObj) :
    strContains "## Installation" (generateReadme obj) := by
  unfold generateReadme
  iterate 14 apply strContains_appendRight
  apply strContains_appendLeft
  exact strContains_of_eq "## Installation"
    "\n\n## Table of Contents\n*[Description](#description) \n*[Installation](#installation)\n*[Usage](#usage)\n*[License](#license)\n*[Credits](#credits)\n*[Tests](#tests)\n*[Questions] (#questions)\n\n\n"
    "\n    " _ (by decide)

theorem gr_has_usage (obj : JsObj) :
    strContains "## Usage" (generateReadme obj) := by
  unfold generateReadme
  iterate 12 apply strContains_appendRight
  apply strContains_appendLeft
  exact strContains_of_eq "## Usage" "\n\n" "\n    " _ (by decide)

theorem gr_has_contributing (obj : JsObj) :
    strContains "## Contributing" (generateReadme obj) := by
  unfold generateReadme
  iterate 8 apply strContains_appendRight
  apply strContains_appendLeft
  exact strContains_of_eq "## Contributing" "\n\n" "\n    " _ (by decide)

theorem gr_has_tests (obj : JsObj) :
    strContains "## Tests" (generateReadme obj) := by
  unfold generateReadme
  iterate 6 apply strContains_appendRight
  apply strContains_appendLeft
  exact strContains_of_eq "## Tests" "\n\n" "\n    " _ (by decide)

theorem gr_has_questions (obj : JsObj) :
    strContains "##Questions" (generateReadme obj) := by
  unfold generateReadme
  iterate 4 apply strContains_appendRight
  apply strContains_appendLeft
  exact strContains_of_eq "##Questions" "\n\n"
    "\n\nHere is a link to my GitHub profile " _ (by decide)

theorem append_ne_empty_right (a b : String) (hb : b ≠ "") : a ++ b ≠ "" := by
  intro h
  apply hb
  have hd := congrArg String.data h
  rw [String.data_append] at hd
  have hnil : b.data = [] := (List.append_eq_nil.mp hd).2
  exact String.ext (by rw [hnil])

theorem append_ne_empty_left (a b : String) (ha : a ≠ "") : a ++ b ≠ "" := by
  intro h
  apply ha
  have hd := congrArg String.data h
  rw [String.data_append] at hd
  have hnil : a.data = [] := (List.append_eq_nil.mp hd).1
  exact String.ext (by rw [hnil])

/-- The questions arrays define no question named credits, so the answers
object delivered by the prompt library never carries a credits property,
whatever the operator typed. -/
theorem promptAnswers_credits_none (rs : List String) :
    jsGet (promptAnswers rs) "credits" = none := by
  have hmem : "credits" ∉ questions.map (fun q => q.name) := by decide
  have hfind : List.find? (fun p => p.1 == "credits")
      ((questions.map (fun q => q.name)).zip rs) = none := by
    apply List.find?_eq_none.mpr
    rintro ⟨a, b⟩ hp
    simp only [beq_iff_eq]
    intro hab
    have hab2 : a = "credits" := hab
    exact hmem (hab2 ▸ (List.of_mem_zip hp).1)
  unfold jsGet promptAnswers
  rw [hfind]
  rfl

/-- On any answers object delivered by the prompt library, the credits
property destructured by generateReadme is undefined, so the body of the
Contributing section renders as the literal text undefined. -/
theorem gr_contributing_undefined (rs : List String) :
    strContains "## Contributing\n    undefined"
      (generateReadme (promptAnswers rs)) := by
  have hc : jsGet (promptAnswers rs) "credits" = none :=
    promptAnswers_credits_none rs
  unfold generateReadme
  rw [hc]
  have hu : jsInterp none = "undefined" := rfl
  rw [hu]
  iterate 7 apply strContains_appendRight
  apply strContains_lastTwo
  exact strContains_of_eq "## Contributing\n    undefined" "\n\n" "" _ (by decide)

/-- C1: the spec states that rendering never fails and that generateReadme
accepts any text input and always produces a text output. The generateReadme
of src/index.js violates this: its table-of-contents lines dereference the
module-scope identifier `data`, which the file never declares, so every
call raises a ReferenceError instead of returning text. This theorem
evaluates that function at the demonstration AnswerSet of the spec. The
spec itself notes the broken table-of-contents interpolation as a slip of
an abandoned draft, so the claim is the intent and the code is in error;
the part_000 copy of generateReadme, a total function in this file, does
satisfy the claim. -/
theorem c1_generateReadmeIndex_raises :
    generateReadmeIndex demoAnswers =
      Except.error "ReferenceError: data is not defined" := rfl

/-- C2 counterexample: the claim says that with an empty license all
license-related content, heading included, is absent from the output.
In fact generateReadme interpolates the license field directly under an
unconditional literal heading: on the demonstration AnswerSet with an
empty license answer, the output still contains the License heading. -/
theorem c2_license_heading_present_when_empty :
    jsGet demoAnswersNoLicense "license" = some "" ∧
    strContains "## License" (generateReadme demoAnswersNoLicense) :=
  ⟨by decide, gr_has_license demoAnswersNoLicense⟩

/-- C2 as amended: the set of section headings in the output of
generateReadme is fixed and independent of all field contents, with no
exception for the license: the Description, Installation, Usage, License,
Contributing, Tests and Questions headings are all present for every input
object, the License heading included even when the license field is empty
(only the section body is then empty); the Questions heading is rendered
without a space after its marker. -/
theorem c2_section_headings_fixed (obj : JsObj) :
    strContains "## Description" (generateReadme obj) ∧
    strContains "## Installation" (generateReadme obj) ∧
    strContains "## Usage" (generateReadme obj) ∧
    strContains "## License" (generateReadme obj) ∧
    strContains "## Contributing" (generateReadme obj) ∧
    strContains "## Tests" (generateReadme obj) ∧
    strContains "##Questions" (generateReadme obj) :=
  ⟨gr_has_description obj, gr_has_installation obj, gr_has_usage obj,
   gr_has_license obj, gr_has_contributing obj, gr_has_tests obj,
   gr_has_questions obj⟩

/-- C3: for every non-empty license string L, renderLicenseBadge and
renderLicenseLink return non-empty strings containing L as a substring;
for the empty string both return the empty string. -/
theorem c3_renderLicense_badge_link :
    (∀ L : String, L ≠ "" →
      renderLicenseBadge L ≠ "" ∧ strContains L (renderLicenseBadge L) ∧
      renderLicenseLink L ≠ "" ∧ strContains L (renderLicenseLink L)) ∧
    renderLicenseBadge "" = "" ∧ renderLicenseLink "" = "" := by
  refine ⟨?_, rfl, rfl⟩
  intro L hL
  refine ⟨?_, ?_, ?_, ?_⟩
  · simp only [renderLicenseBadge, if_pos hL]
    exact append_ne_empty_left L _ hL
  · simp only [renderLicenseBadge, if_pos hL]
    exact ⟨"", _, by rw [String.empty_append]⟩
  · simp only [renderLicenseLink, if_pos hL]
    exact append_ne_empty_right _ L hL
  · simp only [renderLicenseLink, if_pos hL]
    exact ⟨_, "", by rw [String.append_empty]⟩

/-- C3 witness: the theorem applied at the license MIT. -/
theorem c3_witness :
    renderLicenseBadge "MIT" ≠ "" ∧
    strContains "MIT" (renderLicenseBadge "MIT") ∧
    renderLicenseLink "MIT" ≠ "" ∧
    strContains "MIT" (renderLicenseLink "MIT") :=
  c3_renderLicense_badge_link.1 "MIT" (by decide)

/-- C4: renderLicenseSection returns the empty string on the empty string
and returns every non-empty license string verbatim. -/
theorem c4_renderLicenseSection_spec :
    renderLicenseSection "" = "" ∧
    ∀ L : String, L ≠ "" → renderLicenseSection L = L := by
  refine ⟨rfl, ?_⟩
  intro L hL
  simp only [renderLicenseSection, if_pos hL]

/-- C4 witness: the theorem applied at the license MIT. -/
theorem c4_witness :
    renderLicenseSection "" = "" ∧ renderLicenseSection "MIT" = "MIT" :=
  ⟨c4_renderLicenseSection_spec.1,
   c4_renderLicenseSection_spec.2 "MIT" (by decide)⟩

/-- C5: for every input object whose title field holds the text t, the
document rendered by generateReadme begins with the title heading marker
followed by t, so its first line begins with the marker followed by the
supplied title; this holds for every title text, the empty string
included. -/
theorem c5_title_heading (obj : JsObj) (t : String)
    (h : jsGet obj "title" = some t) :
    ∃ rest : String, generateReadme obj = "# " ++ (t ++ rest) := by
  unfold generateReadme
  rw [h]
  simp only [jsInterp, String.append_assoc]
  exact ⟨_, rfl⟩

/-- C5 witness: the theorem applied at the demonstration AnswerSet, whose
title is Demo. -/
theorem c5_witness :
    ∃ rest : String, generateReadme demoAnswers = "# " ++ ("Demo" ++ rest) :=
  c5_title_heading demoAnswers "Demo" (by decide)

/-- C6: both copies of generateReadme are deterministic: two calls on
identical input objects yield identical output. -/
theorem c6_generateReadme_deterministic (a b : JsObj) (h : a = b) :
    generateReadme a = generateReadme b ∧
    generateReadmeIndex a = generateReadmeIndex b := by
  rw [h]
  exact ⟨rfl, rfl⟩

/-- C6 witness: the theorem applied at the demonstration AnswerSet. -/
theorem c6_witness :
    generateReadme demoAnswers = generateReadme demoAnswers ∧
    generateReadmeIndex demoAnswers = generateReadmeIndex demoAnswers :=
  c6_generateReadme_deterministic demoAnswers demoAnswers rfl

/-- C7: both questions arrays ask exactly nine questions, in the fixed
order title, license, description, installation, usage, contribution,
tests, username, email, each named after the AnswerSet field it produces;
only the license question is a list-type single choice over a fixed
enumerated set (Apache-2.0, MIT, BSD, GPL in src/index.js; the combined
variant MIT/Apache-2.0 replacing Apache-2.0 in the part_000 copy), and all
other questions are free text. -/
theorem c7_questions_fixed_order :
    questionsIndex.length = 9 ∧
    questionsIndex.map (fun q => q.name) =
      ["title", "license", "description", "installation", "usage",
       "contribution", "tests", "username", "email"] ∧
    questionsIndex.map (fun q => q.type) =
      ["Input", "list", "Input", "Input", "Input", "Input", "Input",
       "Input", "input"] ∧
    questionsIndex.map (fun q => q.choices) =
      [none, some ["Apache-2.0", "MIT", "BSD", "GPL"], none, none, none,
       none, none, none, none] ∧
    questions.length = 9 ∧
    questions.map (fun q => q.name) = questionsIndex.map (fun q => q.name) ∧
    questions.map (fun q => q.type) = questionsIndex.map (fun q => q.type) ∧
    questions.map (fun q => q.choices) =
      [none, some ["MIT/Apache-2.0", "MIT", "BSD", "GPL"], none, none, none,
       none, none, none, none] :=
  ⟨rfl, rfl, rfl, rfl, rfl, rfl, rfl, rfl⟩

/-- C8: init writes the rendered document under the fixed file name
README.md; after the write the directory maps README.md to exactly the
rendered document, whatever file of that name existed before (the
overwrite); the callback logs the fixed success message when no error
occurred and logs the error itself otherwise, with nothing else: no retry
and no exit code is modelled because the source has none. -/
theorem c8_init_writes_readme (answers : JsObj)
    (dir : List (String × String)) :
    (initWriteRequest answers).fileName = "README.md" ∧
    (initWriteRequest answers).contents = generateReadme answers ∧
    jsGet (fsWriteFile dir (initWriteRequest answers)) "README.md" =
      some (generateReadme answers) ∧
    writeFileCallback none = "Successfully written Readme!" ∧
    (∀ e : String, writeFileCallback (some e) = e) := by
  refine ⟨rfl, rfl, ?_, rfl, fun e => rfl⟩
  unfold jsGet fsWriteFile initWriteRequest
  rw [List.find?_cons_of_pos _ (by rfl)]
  rfl

/-- C9: the question list stores the contribution answer under the key
contribution and never defines a credits key, so on every answers object
the prompt library can deliver, the credits property destructured by
generateReadme is undefined and the Contributing section body renders as
the literal text undefined, regardless of what the operator answered. -/
theorem c9_contributing_body_undefined (rs : List String) :
    jsGet (promptAnswers rs) "credits" = none ∧
    strContains "## Contributing\n    undefined"
      (generateReadme (promptAnswers rs)) :=
  ⟨promptAnswers_credits_none rs, gr_contributing_undefined rs⟩

/-- C10: for every non-empty license string L the badge fragment embedded
by renderLicenseBadge (after L) and by renderLicenseLink (before L,
separated by one space) is the same fixed constant, independent of L. -/
theorem c10_badge_constant (L : String) (h : L ≠ "") :
    renderLicenseBadge L = L ++ badgeFragment ∧
    renderLicenseLink L = badgeFragment ++ " " ++ L := by
  constructor
  · simp only [renderLicenseBadge, if_pos h, badgeFragment]
  · simp only [renderLicenseLink, if_pos h]
    have hb :
        ("![Crates.io](https://img.shields.io/crates/l/rustc-serialize/0.3.24) " :
          String) = badgeFragment ++ " " := rfl
    rw [hb]

/-- C10 witness: the theorem applied at the license MIT. -/
theorem c10_witness :
    renderLicenseBadge "MIT" = "MIT" ++ badgeFragment ∧
    renderLicenseLink "MIT" = badgeFragment ++ " " ++ "MIT" :=
  c10_badge_constant "MIT" (by decide)
